import Mathlib

/-!
Verification of the Preempt anomaly-detection pipeline.

This file gives a shallow embedding of the Go sources of the Preempt
repository (statistics helpers, the statistical detection pass, the hybrid
detector's machine-learning wait loop over Redis streams, the stream
persister's message handling, the collector's retry and mode-decision
logic and its concurrency semaphore, and the alarm suggester), and proves
or refutes the specified properties about them.

Floating-point values of the Go code (float64) are modelled as real
numbers; machine integers index only small structures and appear as
naturals or integers.  Effectful operations (Redis stream reads, database
queries, HTTP fetches) are modelled by passing their observable results
explicitly.
-/

namespace Preempt

/-! ## Statistics helpers

From internal/detector/suggester.go (calculateMean, calculateStdDev) and
internal/detector/detector.go (CalculateZScore, IsOutlier,
calculateSeverityFromZScore). -/

/-- calculateMean from internal/detector/suggester.go: arithmetic mean,
returning 0 for the empty list. -/
noncomputable def calculateMean (values : List ℝ) : ℝ :=
  if values.length = 0 then 0
  else values.sum / (values.length : ℝ)

/-- calculateStdDev from internal/detector/suggester.go: sample standard
deviation about a given mean (divisor n-1), returning 0 for lists of
length at most 1. -/
noncomputable def calculateStdDev (values : List ℝ) (mean : ℝ) : ℝ :=
  if values.length ≤ 1 then 0
  else Real.sqrt
    ((values.map (fun v => (v - mean) * (v - mean))).sum /
      (((values.length - 1 : ℕ)) : ℝ))

/-- CalculateZScore from internal/detector/detector.go: z-score with a
guard returning 0 when the standard deviation is 0. -/
noncomputable def CalculateZScore (value mean stdDev : ℝ) : ℝ :=
  if stdDev = 0 then 0
  else (value - mean) / stdDev

/-- IsOutlier from internal/detector/detector.go: a z-score flags an
outlier when its absolute value exceeds 1.0. -/
def IsOutlier (zScore : ℝ) : Prop :=
  |zScore| > 1

noncomputable instance (zScore : ℝ) : Decidable (IsOutlier zScore) :=
  inferInstanceAs (Decidable (|zScore| > 1))

/-- calculateSeverityFromZScore from internal/detector/detector.go:
severity bucket of a z-score. -/
noncomputable def calculateSeverityFromZScore (zScore : ℝ) : String :=
  if |zScore| > 2 then "high"
  else if |zScore| > 1.5 then "medium"
  else "low"

/-! ## Detector data model

From internal/models (Metric, Anomaly) as used by the per-location
detector.  Database row ids and the wall-clock type are irrelevant to the
verified properties; timestamps are integers. -/

/-- An observation row as returned by db.GetMetrics. -/
structure Metric where
  timestamp : Int
  metricType : String
  value : ℝ

/-- An anomaly record as produced by the detector. -/
structure Anomaly where
  location : String
  timestamp : Int
  metricType : String
  value : ℝ
  zScore : ℝ
  severity : String

/-! ## Statistical pass

From getStatsAnomalies in the per-location detector: observations of the
last 7 days (baseline) and the last 24 hours (recent) are grouped by
metric type; for each monitored metric type with at least 3 baseline
samples and nonzero sample standard deviation, each recent observation
whose z-score is an outlier is emitted as an anomaly.  Grouping by a Go
map and iterating the monitored list is modelled by filtering the rows by
metric type. -/

/-- The body of the per-metric-type loop of getStatsAnomalies, applied to
the baseline and recent observations of one metric type. -/
noncomputable def statsForType (location metricType : String)
    (baseline recent : List Metric) : List Anomaly :=
  if baseline.length < 3 then []
  else
    let values := baseline.map (fun m => m.value)
    let mean := calculateMean values
    let stdDev := calculateStdDev values mean
    if stdDev = 0 then []
    else
      recent.filterMap (fun m =>
        let zScore := CalculateZScore m.value mean stdDev
        if IsOutlier zScore then
          some { location := location, timestamp := m.timestamp,
                 metricType := metricType, value := m.value,
                 zScore := zScore,
                 severity := calculateSeverityFromZScore zScore }
        else none)

/-- getStatsAnomalies from the per-location detector: iterate the
monitored metric types, processing each type independently on the rows of
that type. -/
noncomputable def getStatsAnomalies (location : String)
    (metricTypes : List String) (baseline recent : List Metric) :
    List Anomaly :=
  (metricTypes.map (fun mt =>
    statsForType location mt
      (baseline.filter (fun m => m.metricType == mt))
      (recent.filter (fun m => m.metricType == mt)))).flatten

/-! ## Alarm suggester

From internal/detector/suggester.go.  The Go switch statement assigning
threshold, operator and description is factored into switchThreshold; the
default case of the switch returns nil, while the temperature and
humidity cases leave the Go zero values (threshold 0, operator "",
description "") in place when the mean falls in the middle range. -/

/-- An alarm suggestion record (models.AlarmSuggestion); the database id
and the wall-clock suggested-at instant are omitted. -/
structure AlarmSuggestion where
  metricType : String
  threshold : ℝ
  operator : String
  confidence : ℝ
  description : String
  anomalyCount : Nat

/-- The per-value trigger test inside calculateConfidence
(internal/detector/suggester.go): a value triggers the alarm when it
exceeds the threshold under operator ">", is below it under "<", and
never otherwise. -/
noncomputable def triggersAlarm (operator : String) (threshold v : ℝ) :
    Bool :=
  if operator = ">" ∧ v > threshold then true
  else if operator = "<" ∧ v < threshold then true
  else false

/-- calculateConfidence from internal/detector/suggester.go: the fraction
of the anomalous values that would trigger the suggested alarm. -/
noncomputable def calculateConfidence (values : List ℝ)
    (threshold : ℝ) (operator : String) : ℝ :=
  if values.length = 0 then 0
  else ((values.countP (triggersAlarm operator threshold)) : ℝ) /
    (values.length : ℝ)

/-- The switch statement of generateSuggestion: per metric type, derive
threshold, operator and description from the group's mean and sample
standard deviation.  The temperature and humidity cases leave the Go
zero values in place when neither branch fires; the default case
returns nil. -/
noncomputable def switchThreshold (metricType : String)
    (mean stdDev : ℝ) : Option (ℝ × String × String) :=
  if metricType = "temperature_2m" then
    some (if mean > 30 then
        (mean + 2 * stdDev, ">", "Temperature exceeding safe operational limits")
      else if mean < 0 then
        (mean - 2 * stdDev, "<", "Temperature dropping below safe operational limits")
      else (0, "", ""))
  else if metricType = "relative_humidity_2m" then
    some (if mean > 80 then
        (mean + stdDev, ">", "Humidity levels becoming excessive")
      else if mean < 20 then
        (mean - stdDev, "<", "Humidity levels dropping dangerously low")
      else (0, "", ""))
  else if metricType = "precipitation" then
    some (mean + 2 * stdDev, ">", "Precipitation exceeding normal levels")
  else if metricType = "wind_speed_10m" then
    some (mean + 2 * stdDev, ">", "Wind speed reaching dangerous levels")
  else none

/-- generateSuggestion from internal/detector/suggester.go: statistics of
the group's values, the per-metric switch, then the confidence of the
resulting threshold. -/
noncomputable def generateSuggestion (metricType : String)
    (anomalies : List Anomaly) : Option AlarmSuggestion :=
  if anomalies.length = 0 then none
  else
    let values := anomalies.map (fun a => a.value)
    let mean := calculateMean values
    let stdDev := calculateStdDev values mean
    match switchThreshold metricType mean stdDev with
    | none => none
    | some (threshold, operator, description) =>
      some { metricType := metricType, threshold := threshold,
             operator := operator,
             confidence := calculateConfidence values threshold operator,
             description := description,
             anomalyCount := anomalies.length }

/-- SuggestAlarms from internal/detector/suggester.go: group the
anomalies by metric type and generate a suggestion for every group with
at least 3 members.  Iteration order of the Go map over metric types is
modelled by first-occurrence order of the types. -/
noncomputable def SuggestAlarms (anomalies : List Anomaly) :
    List AlarmSuggestion :=
  if anomalies.length = 0 then []
  else
    ((anomalies.map (fun a => a.metricType)).dedup).filterMap (fun mt =>
      let typeAnomalies := anomalies.filter (fun a => a.metricType == mt)
      if 3 ≤ typeAnomalies.length then generateSuggestion mt typeAnomalies
      else none)

/-! ## Hybrid detector: the machine-learning wait loop

From getMLAnomalies in the per-location detector (Redis-stream variant):
before publishing the request, the tail id of the ml_output stream is
probed (XRevRangeN, defaulting to 0-0 on an empty stream); then a 500 ms
ticker drives XRead calls that return up to 10 entries of the stream
with ids greater than the probed id, and the batch is scanned in order
for a decoded payload whose job id equals the fresh job id.  Stream ids
are modelled as naturals, streams as lists of entries in increasing id
order, and the passage of time as the list of snapshots of the stream
contents seen at the successive ticker firings before the 60 s deadline.
JSON decoding of an entry's data field is abstracted to its result: a
payload of none models an entry whose data field is missing or fails to
unmarshal (both are skipped with a log); the wait-loop logic consults no
decoded field other than the job id. -/

/-- A decoded ML response payload.  Only the job id is consulted by the
wait loop. -/
structure MLResultMsg where
  jobID : String
deriving DecidableEq

/-- An entry of the ml_output Redis stream. -/
structure StreamMsg where
  id : Nat
  data : Option MLResultMsg
deriving DecidableEq

/-- The accept test of the wait loop: the entry decodes and its job id
equals ours. -/
def isMatch (jobID : String) (m : StreamMsg) : Bool :=
  match m.data with
  | some r => r.jobID == jobID
  | none => false

/-- The cursor probe before publishing (XRevRangeN on ml_output with
count 1): the id of the last entry, or 0 (for "0-0") when the stream is
empty. -/
def probeLastID (stream : List StreamMsg) : Nat :=
  match stream.getLast? with
  | some m => m.id
  | none => 0

/-- One XRead call of the wait loop: up to 10 entries with ids strictly
greater than the given id. -/
def xRead (stream : List StreamMsg) (lastID : Nat) : List StreamMsg :=
  (stream.filter (fun m => lastID < m.id)).take 10

/-- The inner scan over one read batch: entries are inspected in order;
undecodable entries and entries of other jobs are skipped, and the first
matching entry is accepted. -/
def scanBatch (jobID : String) (batch : List StreamMsg) :
    Option StreamMsg :=
  batch.find? (isMatch jobID)

/-- The wait loop of getMLAnomalies: at each ticker firing, an XRead
from the probed id - the local variable lastID is never reassigned in
the loop, so every read uses the same cursor - and a scan of the batch;
the loop ends on the first accepted entry, or with a timeout (none) when
the deadline passes, i.e. when the snapshots are exhausted. -/
def mlWaitLoop (jobID : String) (lastID : Nat) :
    List (List StreamMsg) → Option StreamMsg
  | [] => none
  | snap :: rest =>
    match scanBatch jobID (xRead snap lastID) with
    | some m => some m
    | none => mlWaitLoop jobID lastID rest

/-- The entries inspected by the wait loop across its whole run, in
inspection order: every entry of every read batch up to the accepted
entry (inclusive), or all read entries when the loop times out. -/
def inspectedMessages (jobID : String) (lastID : Nat) :
    List (List StreamMsg) → List StreamMsg
  | [] => []
  | snap :: rest =>
    let batch := xRead snap lastID
    match scanBatch jobID batch with
    | some m => batch.takeWhile (fun x => !(isMatch jobID x)) ++ [m]
    | none => batch ++ inspectedMessages jobID lastID rest

/-! ## Stream persister

From cmd/store/main.go: for each message pulled by XReadGroup, the
handler takes the data field by Go type assertion (a missing or
non-string data field panics), unmarshals the envelope and the forecast
(on either failure it logs and continues with the next message), stores
the observations, and only after a successful store acknowledges the
message and trims the stream.  JSON decoding is abstracted to its
result: the data field of a message is modelled as none when absent or
not a string, and as some none when present but failing to unmarshal. -/

/-- The decoded ingest envelope; only the fields the persister consults
after decoding are kept. -/
structure Envelope where
  locationName : String
  typeStr : String
deriving DecidableEq

/-- Observable outcome of handling one pulled message. -/
inductive PersistOutcome where
  /-- The data field was missing or not a string: the Go type assertion
  m.Values of data .(string) panics. -/
  | panicked
  /-- The envelope or forecast failed to unmarshal: logged and skipped,
  with no acknowledgement. -/
  | skipped
  /-- Stored successfully, then acknowledged and the stream trimmed. -/
  | storedAcked
  /-- The store failed: logged and skipped, with no acknowledgement. -/
  | storeFailed
deriving DecidableEq

/-- The body of the persister's message loop for one message, given the
decode result of its data field and whether the store call succeeds. -/
def persistMessage (dataField : Option (Option Envelope))
    (storeOK : Bool) : PersistOutcome :=
  match dataField with
  | none => .panicked
  | some none => .skipped
  | some (some _) => if storeOK then .storedAcked else .storeFailed

/-- Whether an outcome acknowledges the message (XAck is reached only
after a successful store). -/
def acked : PersistOutcome → Bool
  | .storedAcked => true
  | _ => false

/-! ## Collector

From cmd/collect/main.go: per-location tasks gated by a semaphore of
capacity maxConcurrentRequests, each choosing historical or current mode
by membership of the location name in the set returned by
GetLocationsWithData, calling the weather client with up to maxRetries
attempts and exponential backoff on rate-limit errors. -/

/-- maxRetries from cmd/collect/main.go. -/
def maxRetries : Nat := 3

/-- maxConcurrentRequests from cmd/collect/main.go. -/
def maxConcurrentRequests : Nat := 2

/-- Substring containment, as Go strings.Contains: the empty needle is
contained in every string. -/
def goContains (s sub : String) : Bool :=
  containsAux s.toList sub.toList
where
  containsAux : List Char → List Char → Bool
    | hay, needle =>
      if needle.isPrefixOf hay then true
      else match hay with
        | [] => false
        | _ :: rest => containsAux rest needle

/-- The rate-limit predicate of cmd/collect/main.go: the error message
contains "429" or "Too many". -/
def isRateLimitError (errMsg : String) : Bool :=
  goContains errMsg "429" || goContains errMsg "Too many"

/-- Result of one weather-client call, as observed by the retry loop:
success, or failure with the error message. -/
inductive FetchResult where
  | ok
  | fail (errMsg : String)
deriving DecidableEq

/-- Observable events of one location task. -/
inductive TaskEvent where
  /-- A weather-client call was started for the given attempt index. -/
  | attempt (k : Nat)
  /-- The task slept for the given number of seconds before retrying. -/
  | sleep (secs : Nat)
  /-- The envelope was published to the ingest stream and the task
  returned. -/
  | published
  /-- The task logged the failure and returned without publishing. -/
  | gaveUp
deriving DecidableEq

/-- The retry loop of a collector location task, with the per-attempt
fetch outcomes passed in: on success publish and return; on a rate-limit
failure before the last attempt sleep two-to-the-attempt seconds and
retry; on any other failure (or a rate-limit failure on the last
attempt) log and return.  The fuel argument counts the remaining loop
iterations, maxRetries - attempt. -/
def runCollectTask (fetch : Nat → FetchResult) :
    Nat → Nat → List TaskEvent
  | _, 0 => []
  | attempt, fuel + 1 =>
    match fetch attempt with
    | .ok => [.attempt attempt, .published]
    | .fail errMsg =>
      if isRateLimitError errMsg = true ∧ attempt < maxRetries - 1 then
        .attempt attempt :: .sleep (2 ^ attempt) ::
          runCollectTask fetch (attempt + 1) fuel
      else [.attempt attempt, .gaveUp]

/-- One location task's trace, starting at attempt 0. -/
def collectTask (fetch : Nat → FetchResult) : List TaskEvent :=
  runCollectTask fetch 0 maxRetries

/-- The number of weather-client calls in a trace. -/
def countAttempts (trace : List TaskEvent) : Nat :=
  trace.countP (fun e => match e with | .attempt _ => true | _ => false)

/-- The backoff sleeps of a trace, in order. -/
def sleepsOf (trace : List TaskEvent) : List Nat :=
  trace.filterMap (fun e => match e with | .sleep s => some s | _ => none)

/-- An observation row of the metrics table, as consulted by
GetLocationsWithData; columns other than the location are irrelevant to
the mode decision. -/
structure MetricRow where
  location : String
deriving DecidableEq

/-- GetLocationsWithData from internal/database/db.go: the distinct
locations of the metrics table (SELECT DISTINCT location FROM metrics),
modelled as a deduplicated list. -/
def GetLocationsWithData (rows : List MetricRow) : List String :=
  (rows.map (fun r => r.location)).dedup

/-- Fetch mode of a location task. -/
inductive FetchMode where
  | historical
  | current
deriving DecidableEq

/-- The mode decision of a collector task (cmd/collect/main.go):
historical when the location name is absent from the
locations-with-data set, current otherwise. -/
def chooseMode (locationsWithData : List String) (name : String) :
    FetchMode :=
  if name ∈ locationsWithData then .current else .historical

/-! ## Collector semaphore

The semaphore of cmd/collect/main.go is a buffered channel of capacity
maxConcurrentRequests; each location task sends into it before its
network calls and receives from it (via defer) when done.  The tasks are
modelled by a step relation on the list of per-task phases: a task still
before its send is idle, a task holding a slot - the region in which its
upstream requests happen - is acquired, and a task past its receive is
done.  A send is enabled only while fewer than the capacity hold slots. -/

/-- Phase of one collector location task with respect to the
semaphore. -/
inductive SemPhase where
  | idle
  | acquired
  | done
deriving DecidableEq

/-- The number of tasks currently holding a semaphore slot, i.e. whose
upstream request may be in flight. -/
def heldCount (s : List SemPhase) : Nat :=
  s.countP (fun p => p == SemPhase.acquired)

/-- Interleaving semantics of the collector's semaphore: one task
acquires a slot (enabled only under the capacity), or one task releases
its slot. -/
inductive SemStep (cap : Nat) : List SemPhase → List SemPhase → Prop
  | acquire (l r : List SemPhase) :
      heldCount (l ++ SemPhase.idle :: r) < cap →
      SemStep cap (l ++ SemPhase.idle :: r) (l ++ SemPhase.acquired :: r)
  | release (l r : List SemPhase) :
      SemStep cap (l ++ SemPhase.acquired :: r) (l ++ SemPhase.done :: r)

/-- States of a collector run with n location tasks reachable from the
initial state in which every task is before its acquire. -/
def SemReachable (cap n : Nat) (s : List SemPhase) : Prop :=
  Relation.ReflTransGen (SemStep cap) (List.replicate n SemPhase.idle) s

/-! ## Helper lemmas -/

/-- Whatever the wait loop accepts was read after the cursor and carries
our job id. -/
lemma mlWaitLoop_accept (jobID : String) (lastID : Nat)
    (snaps : List (List StreamMsg)) (m : StreamMsg)
    (h : mlWaitLoop jobID lastID snaps = some m) :
    isMatch jobID m = true ∧ lastID < m.id := by
  induction snaps with
  | nil => simp [mlWaitLoop] at h
  | cons snap rest ih =>
    rw [mlWaitLoop] at h
    rcases hsc : scanBatch jobID (xRead snap lastID) with _ | m'
    · rw [hsc] at h
      exact ih h
    · rw [hsc] at h
      cases h
      have hp : isMatch jobID m = true := List.find?_some hsc
      have hmem : m ∈ xRead snap lastID := List.mem_of_find?_eq_some hsc
      have hmem2 : m ∈ (snap.filter (fun x => lastID < x.id)) :=
        List.mem_of_mem_take hmem
      have hlt := (List.mem_filter.mp hmem2).2
      exact ⟨hp, by simpa using hlt⟩

/-- Held-slot count of the all-idle initial state. -/
lemma heldCount_replicate_idle (n : Nat) :
    heldCount (List.replicate n SemPhase.idle) = 0 := by
  induction n with
  | zero => rfl
  | succ k ih =>
    rw [List.replicate_succ]
    simp [heldCount, List.countP_cons] at ih ⊢

/-- Held-slot count across a one-element update point. -/
lemma heldCount_split (l r : List SemPhase) (x : SemPhase) :
    heldCount (l ++ x :: r) =
      heldCount l + heldCount r + heldCount [x] := by
  simp [heldCount, List.countP_append, List.countP_cons]
  omega

/-- The severity buckets of calculateSeverityFromZScore. -/
lemma calculateSeverityFromZScore_spec (z : ℝ) :
    (2 < |z| → calculateSeverityFromZScore z = "high") ∧
    (1.5 < |z| ∧ |z| ≤ 2 → calculateSeverityFromZScore z = "medium") ∧
    (|z| ≤ 1.5 → calculateSeverityFromZScore z = "low") := by
  unfold calculateSeverityFromZScore
  refine ⟨fun h => ?_, fun h => ?_, fun h => ?_⟩
  · rw [if_pos h]
  · rw [if_neg (not_lt.mpr h.2), if_pos h.1]
  · rw [if_neg (not_lt.mpr (le_trans h (by norm_num))), if_neg (not_lt.mpr h)]

/-- Every anomaly produced by the per-type statistical pass carries that
metric type. -/
lemma statsForType_metricType {loc mt : String} {b r : List Metric}
    {a : Anomaly} (ha : a ∈ statsForType loc mt b r) : a.metricType = mt := by
  simp only [statsForType] at ha
  split at ha
  · simp at ha
  · split at ha
    · simp at ha
    · obtain ⟨m, hm, hf⟩ := List.mem_filterMap.mp ha
      split at hf
      · cases hf
        rfl
      · cases hf

/-- Membership in the per-type statistical pass, under the sample-size
and variation guards. -/
lemma mem_statsForType (loc mt : String) (b r : List Metric) (μ σ : ℝ)
    (hμ : μ = calculateMean (b.map fun m => m.value))
    (hσdef : σ = calculateStdDev (b.map fun m => m.value) μ)
    (h3 : ¬ b.length < 3) (hσ : σ ≠ 0) (a : Anomaly) :
    a ∈ statsForType loc mt b r ↔
      ∃ m ∈ r, IsOutlier (CalculateZScore m.value μ σ) ∧
        a = { location := loc, timestamp := m.timestamp, metricType := mt,
              value := m.value, zScore := CalculateZScore m.value μ σ,
              severity := calculateSeverityFromZScore
                (CalculateZScore m.value μ σ) } := by
  subst hμ
  subst hσdef
  simp only [statsForType, if_neg h3, if_neg hσ, List.mem_filterMap]
  constructor
  · rintro ⟨m, hm, hf⟩
    split at hf
    · cases hf
      exact ⟨m, hm, by assumption, rfl⟩
    · cases hf
  · rintro ⟨m, hm, ho, rfl⟩
    exact ⟨m, hm, by rw [if_pos ho]⟩

/-! ## Claims -/

/-- C3: in the statistical pass, for every metric type whose 7-day
baseline has at least 3 samples and positive sample standard deviation,
a recent observation is emitted as an anomaly exactly when the absolute
z-score exceeds 1, the emitted score is the z-score, and the severity is
high above 2, medium in (1.5, 2], and low in (1, 1.5]. -/
theorem stats_pass_detection (location mt : String)
    (metricTypes : List String) (baseline recent : List Metric) (μ σ : ℝ)
    (hmt : mt ∈ metricTypes)
    (hμ : μ = calculateMean
      ((baseline.filter fun m => m.metricType == mt).map fun m => m.value))
    (hσdef : σ = calculateStdDev
      ((baseline.filter fun m => m.metricType == mt).map fun m => m.value) μ)
    (h3 : 3 ≤ (baseline.filter fun m => m.metricType == mt).length)
    (hσ : 0 < σ) :
    (∀ m ∈ recent.filter fun m => m.metricType == mt,
      ((∃ a ∈ getStatsAnomalies location metricTypes baseline recent,
          a.metricType = mt ∧ a.timestamp = m.timestamp ∧
            a.value = m.value) ↔
        1 < |(m.value - μ) / σ|)) ∧
    (∀ a ∈ getStatsAnomalies location metricTypes baseline recent,
      a.metricType = mt →
        1 < |a.zScore| ∧ a.zScore = (a.value - μ) / σ ∧
        (2 < |a.zScore| → a.severity = "high") ∧
        (1.5 < |a.zScore| ∧ |a.zScore| ≤ 2 → a.severity = "medium") ∧
        (1 < |a.zScore| ∧ |a.zScore| ≤ 1.5 → a.severity = "low")) := by
  have h3' : ¬ (baseline.filter fun m => m.metricType == mt).length < 3 := by
    omega
  have hσne : σ ≠ 0 := ne_of_gt hσ
  have hz : ∀ v : ℝ, CalculateZScore v μ σ = (v - μ) / σ := by
    intro v
    unfold CalculateZScore
    rw [if_neg hσne]
  have hmemG : ∀ a : Anomaly, a.metricType = mt →
      (a ∈ getStatsAnomalies location metricTypes baseline recent ↔
        a ∈ statsForType location mt
          (baseline.filter fun m => m.metricType == mt)
          (recent.filter fun m => m.metricType == mt)) := by
    intro a hamt
    unfold getStatsAnomalies
    rw [List.mem_flatten]
    constructor
    · rintro ⟨l, hl, hal⟩
      obtain ⟨mt', hmt', rfl⟩ := List.mem_map.mp hl
      have hmt'eq : mt' = mt := by
        rw [← hamt, statsForType_metricType hal]
      rw [hmt'eq] at hal
      exact hal
    · intro hal
      exact ⟨statsForType location mt
        (baseline.filter fun m => m.metricType == mt)
        (recent.filter fun m => m.metricType == mt),
        List.mem_map_of_mem _ hmt, hal⟩
  have hmemS := mem_statsForType location mt
    (baseline.filter fun m => m.metricType == mt)
    (recent.filter fun m => m.metricType == mt) μ σ hμ hσdef h3' hσne
  constructor
  · intro m hm
    constructor
    · rintro ⟨a, haG, hamt, hats, haval⟩
      rw [hmemG a hamt, hmemS a] at haG
      obtain ⟨m', hm', ho, rfl⟩ := haG
      have hval : m'.value = m.value := haval
      rw [hz] at ho
      have ho' : 1 < |(m'.value - μ) / σ| := ho
      rw [hval] at ho'
      exact ho'
    · intro h1
      refine ⟨⟨location, m.timestamp, mt, m.value,
        CalculateZScore m.value μ σ,
        calculateSeverityFromZScore (CalculateZScore m.value μ σ)⟩,
        ?_, rfl, rfl, rfl⟩
      rw [hmemG _ rfl, hmemS _]
      refine ⟨m, hm, ?_, rfl⟩
      show 1 < |CalculateZScore m.value μ σ|
      rw [hz]
      exact h1
  · intro a haG hamt
    rw [hmemG a hamt, hmemS a] at haG
    obtain ⟨m', hm', ho, rfl⟩ := haG
    have hzv : CalculateZScore m'.value μ σ = (m'.value - μ) / σ := hz m'.value
    have ho1 : 1 < |CalculateZScore m'.value μ σ| := ho
    have hsev := calculateSeverityFromZScore_spec (CalculateZScore m'.value μ σ)
    exact ⟨ho1, hzv, fun h => hsev.1 h, fun h => hsev.2.1 ⟨h.1, h.2⟩,
      fun h => hsev.2.2 h.2⟩

/-- Baseline observations used by the C3 witness. -/
def witBaseline : List Metric :=
  [⟨0, "temperature_2m", 0⟩, ⟨1, "temperature_2m", 3⟩,
   ⟨2, "temperature_2m", 6⟩]

/-- Recent observations used by the C3 witness. -/
def witRecent : List Metric := [⟨3, "temperature_2m", 10⟩]

/-- Witness for C3: baseline temperatures 0, 3, 6 over the last week
give mean 3 and sample standard deviation 3; with recent value 10 the
instantiated detection property holds. -/
theorem stats_pass_detection_witness :
    ("temperature_2m" ∈ ["temperature_2m"] ∧
     (3 : ℝ) = calculateMean
       ((witBaseline.filter fun m => m.metricType == "temperature_2m").map
         fun m => m.value) ∧
     (3 : ℝ) = calculateStdDev
       ((witBaseline.filter fun m => m.metricType == "temperature_2m").map
         fun m => m.value) 3 ∧
     3 ≤ (witBaseline.filter fun m =>
       m.metricType == "temperature_2m").length ∧
     (0 : ℝ) < 3) ∧
    ((∀ m ∈ witRecent.filter fun m => m.metricType == "temperature_2m",
      ((∃ a ∈ getStatsAnomalies "Denver" ["temperature_2m"] witBaseline
          witRecent,
          a.metricType = "temperature_2m" ∧ a.timestamp = m.timestamp ∧
            a.value = m.value) ↔
        1 < |(m.value - 3) / 3|)) ∧
    (∀ a ∈ getStatsAnomalies "Denver" ["temperature_2m"] witBaseline
        witRecent,
      a.metricType = "temperature_2m" →
        1 < |a.zScore| ∧ a.zScore = (a.value - 3) / 3 ∧
        (2 < |a.zScore| → a.severity = "high") ∧
        (1.5 < |a.zScore| ∧ |a.zScore| ≤ 2 → a.severity = "medium") ∧
        (1 < |a.zScore| ∧ |a.zScore| ≤ 1.5 → a.severity = "low"))) := by
  have hfil : witBaseline.filter (fun m => m.metricType == "temperature_2m") =
      witBaseline := by
    simp [witBaseline, List.filter]
  have hmap : (witBaseline.map fun m => m.value) = [(0 : ℝ), 3, 6] := by
    simp [witBaseline]
  have hsd : calculateStdDev [(0 : ℝ), 3, 6] 3 = 3 := by
    unfold calculateStdDev
    rw [if_neg (by norm_num : ¬ ([(0 : ℝ), 3, 6].length ≤ 1))]
    have harg : (([(0 : ℝ), 3, 6].map fun v => (v - 3) * (v - 3)).sum /
        ((([(0 : ℝ), 3, 6].length - 1 : ℕ)) : ℝ)) = 9 := by
      norm_num
    rw [harg, show (9 : ℝ) = 3 ^ 2 by norm_num,
      Real.sqrt_sq (by norm_num : (0 : ℝ) ≤ 3)]
  have hmean : calculateMean [(0 : ℝ), 3, 6] = 3 := by
    norm_num [calculateMean]
  have hμ : (3 : ℝ) = calculateMean
      ((witBaseline.filter fun m => m.metricType == "temperature_2m").map
        fun m => m.value) := by
    rw [hfil, hmap, hmean]
  have hσdef : (3 : ℝ) = calculateStdDev
      ((witBaseline.filter fun m => m.metricType == "temperature_2m").map
        fun m => m.value) 3 := by
    rw [hfil, hmap, hsd]
  have h3 : 3 ≤ (witBaseline.filter fun m =>
      m.metricType == "temperature_2m").length := by
    rw [hfil]
    simp [witBaseline]
  exact ⟨⟨by simp, hμ, hσdef, h3, by norm_num⟩,
    stats_pass_detection "Denver" "temperature_2m" ["temperature_2m"]
      witBaseline witRecent 3 3 (by simp) hμ hσdef h3 (by norm_num)⟩

/-- The empty operator left by the mid-range fallthrough triggers on no
value. -/
lemma triggersAlarm_empty (threshold v : ℝ) :
    triggersAlarm "" threshold v = false := by
  unfold triggersAlarm
  rw [if_neg (by simp), if_neg (by simp)]

/-- Confidence of an empty-operator suggestion is 0. -/
lemma calculateConfidence_empty_op (values : List ℝ) (threshold : ℝ) :
    calculateConfidence values threshold "" = 0 := by
  unfold calculateConfidence
  split_ifs with h
  · rfl
  · have : values.countP (triggersAlarm "" threshold) = 0 := by
      simp [triggersAlarm_empty]
    rw [this]
    simp

/-- Anomaly group used by the C5 and C6 evaluations: three mid-range
temperature anomalies with values 10, 15, 20. -/
def witMidTemp : List Anomaly :=
  [⟨"Denver", 0, "temperature_2m", 10, 0, "low"⟩,
   ⟨"Denver", 1, "temperature_2m", 15, 0, "low"⟩,
   ⟨"Denver", 2, "temperature_2m", 20, 0, "low"⟩]

/-- The mid-range temperature group yields a suggestion with the Go zero
values for threshold, operator and description. -/
lemma generateSuggestion_witMidTemp :
    generateSuggestion "temperature_2m" witMidTemp =
      some ⟨"temperature_2m", 0, "", 0, "", 3⟩ := by
  have hval : (witMidTemp.map fun a => a.value) = [(10 : ℝ), 15, 20] := by
    simp [witMidTemp]
  have hlen : witMidTemp.length = 3 := by simp [witMidTemp]
  have hmean : calculateMean [(10 : ℝ), 15, 20] = 15 := by
    norm_num [calculateMean]
  have hsw : switchThreshold "temperature_2m" 15
      (calculateStdDev [(10 : ℝ), 15, 20] 15) = some (0, "", "") := by
    unfold switchThreshold
    rw [if_pos rfl, if_neg (by norm_num : ¬ (15 : ℝ) > 30),
      if_neg (by norm_num : ¬ (15 : ℝ) < 0)]
  simp only [generateSuggestion]
  rw [if_neg (by simp [witMidTemp] : ¬ witMidTemp.length = 0)]
  rw [hval, hmean, hsw]
  show some (AlarmSuggestion.mk "temperature_2m" 0 ""
      (calculateConfidence [(10 : ℝ), 15, 20] 0 "") "" 3) =
    some (AlarmSuggestion.mk "temperature_2m" 0 "" 0 "" 3)
  rw [calculateConfidence_empty_op]

/-- C5: refuted on the code.  A temperature group of size 3 with mean 15
(inside the closed interval 0 to 30) still yields a suggestion: the
switch has no else branch for the middle range, so the Go zero values
(threshold 0, operator empty, description empty) flow into the returned
record, which SuggestAlarms keeps.  The above-30 and below-0 branches do
use mean plus or minus twice the standard deviation as claimed. -/
theorem suggester_midrange_bug :
    (∃ s : AlarmSuggestion,
      generateSuggestion "temperature_2m" witMidTemp = some s ∧
      s ∈ SuggestAlarms witMidTemp ∧
      s.operator = "" ∧ s.threshold = 0 ∧ s.description = "" ∧
      s.confidence = 0) ∧
    (∀ mean stdDev : ℝ, 30 < mean →
      switchThreshold "temperature_2m" mean stdDev =
        some (mean + 2 * stdDev, ">",
          "Temperature exceeding safe operational limits")) ∧
    (∀ mean stdDev : ℝ, mean < 0 →
      switchThreshold "temperature_2m" mean stdDev =
        some (mean - 2 * stdDev, "<",
          "Temperature dropping below safe operational limits")) := by
  refine ⟨⟨⟨"temperature_2m", 0, "", 0, "", 3⟩,
    generateSuggestion_witMidTemp, ?_, rfl, rfl, rfl, rfl⟩, ?_, ?_⟩
  · unfold SuggestAlarms
    rw [if_neg (by simp [witMidTemp] : ¬ witMidTemp.length = 0)]
    rw [List.mem_filterMap]
    refine ⟨"temperature_2m", ?_, ?_⟩
    · simp [witMidTemp]
    · have hfilt : witMidTemp.filter
          (fun a => a.metricType == "temperature_2m") = witMidTemp := by
        simp [witMidTemp, List.filter]
      simp only [hfilt]
      rw [if_pos (by simp [witMidTemp])]
      exact generateSuggestion_witMidTemp
  · intro mean stdDev h
    unfold switchThreshold
    rw [if_pos rfl, if_pos h]
  · intro mean stdDev h
    unfold switchThreshold
    rw [if_pos rfl, if_neg (by linarith : ¬ mean > 30), if_pos h]

/-- C6: for every generated suggestion, the confidence is the number of
group values that strictly satisfy the suggested comparison, divided by
the group size, and it lies between 0 and 1. -/
theorem suggestion_confidence_spec (metricType : String)
    (anomalies : List Anomaly) (s : AlarmSuggestion)
    (h : generateSuggestion metricType anomalies = some s) :
    s.confidence =
      (((anomalies.map fun a => a.value).countP
        (triggersAlarm s.operator s.threshold) : ℕ) : ℝ) /
        ((anomalies.map fun a => a.value).length : ℝ) ∧
    0 ≤ s.confidence ∧ s.confidence ≤ 1 := by
  simp only [generateSuggestion] at h
  by_cases h0 : anomalies.length = 0
  · rw [if_pos h0] at h
    cases h
  · rw [if_neg h0] at h
    rcases hsw : switchThreshold metricType
        (calculateMean (anomalies.map fun a => a.value))
        (calculateStdDev (anomalies.map fun a => a.value)
          (calculateMean (anomalies.map fun a => a.value))) with _ | tod
    · rw [hsw] at h
      cases h
    · rw [hsw] at h
      obtain ⟨t, op, d⟩ := tod
      cases h
      have hconf : calculateConfidence (anomalies.map fun a => a.value) t op =
          (((anomalies.map fun a => a.value).countP
            (triggersAlarm op t) : ℕ) : ℝ) /
            ((anomalies.map fun a => a.value).length : ℝ) := by
        unfold calculateConfidence
        rw [if_neg (by simpa using h0)]
      have hlenpos : 0 < ((anomalies.map fun a => a.value).length : ℝ) := by
        have : 0 < anomalies.length := Nat.pos_of_ne_zero h0
        simpa using Nat.cast_pos.mpr this
      have hcle : ((anomalies.map fun a => a.value).countP
          (triggersAlarm op t) : ℝ) ≤
          ((anomalies.map fun a => a.value).length : ℝ) :=
        Nat.cast_le.mpr (List.countP_le_length _)
      refine ⟨hconf, ?_, ?_⟩
      · rw [hconf]
        exact div_nonneg (Nat.cast_nonneg _) (le_of_lt hlenpos)
      · rw [hconf]
        exact (div_le_one hlenpos).mpr hcle

/-- A greater-than alarm does not trigger on a value at or below the
threshold. -/
lemma triggersAlarm_gt_false (threshold v : ℝ) (hv : ¬ threshold < v) :
    triggersAlarm ">" threshold v = false := by
  unfold triggersAlarm
  rw [if_neg (fun hc => hv hc.2), if_neg (by simp)]

/-- Anomaly group used by the C6 witness: three precipitation anomalies
with values 1, 2, 3. -/
def witPrecAnoms : List Anomaly :=
  [⟨"Mumbai", 0, "precipitation", 1, 0, "low"⟩,
   ⟨"Mumbai", 1, "precipitation", 2, 0, "low"⟩,
   ⟨"Mumbai", 2, "precipitation", 3, 0, "low"⟩]

/-- The suggestion generated for the C6 witness group: mean 2 and sample
standard deviation 1 give threshold 4, and no group value exceeds it. -/
def witPrecSug : AlarmSuggestion :=
  ⟨"precipitation", 4, ">", 0, "Precipitation exceeding normal levels", 3⟩

/-- Evaluation of generateSuggestion on the C6 witness group. -/
lemma generateSuggestion_witPrec :
    generateSuggestion "precipitation" witPrecAnoms = some witPrecSug := by
  have hval : (witPrecAnoms.map fun a => a.value) = [(1 : ℝ), 2, 3] := by
    simp [witPrecAnoms]
  have hmean : calculateMean [(1 : ℝ), 2, 3] = 2 := by
    norm_num [calculateMean]
  have hsd : calculateStdDev [(1 : ℝ), 2, 3] 2 = 1 := by
    unfold calculateStdDev
    rw [if_neg (by norm_num : ¬ ([(1 : ℝ), 2, 3].length ≤ 1))]
    have harg : (([(1 : ℝ), 2, 3].map fun v => (v - 2) * (v - 2)).sum /
        ((([(1 : ℝ), 2, 3].length - 1 : ℕ)) : ℝ)) = 1 := by
      norm_num
    rw [harg, Real.sqrt_one]
  have hsw : switchThreshold "precipitation" 2 1 =
      some (4, ">", "Precipitation exceeding normal levels") := by
    unfold switchThreshold
    rw [if_neg (by decide), if_neg (by decide), if_pos rfl]
    norm_num
  have hconf : calculateConfidence [(1 : ℝ), 2, 3] 4 ">" = 0 := by
    unfold calculateConfidence
    rw [if_neg (by norm_num)]
    have hc : ([(1 : ℝ), 2, 3].countP (triggersAlarm ">" 4)) = 0 := by
      have h1 : triggersAlarm ">" 4 (1 : ℝ) = false :=
        triggersAlarm_gt_false 4 1 (by norm_num)
      have h2 : triggersAlarm ">" 4 (2 : ℝ) = false :=
        triggersAlarm_gt_false 4 2 (by norm_num)
      have h3 : triggersAlarm ">" 4 (3 : ℝ) = false :=
        triggersAlarm_gt_false 4 3 (by norm_num)
      simp [List.countP_cons, h1, h2, h3]
    rw [hc]
    norm_num
  simp only [generateSuggestion]
  rw [if_neg (by simp [witPrecAnoms] : ¬ witPrecAnoms.length = 0)]
  rw [hval, hmean, hsd, hsw]
  show some (AlarmSuggestion.mk "precipitation" 4 ">"
      (calculateConfidence [(1 : ℝ), 2, 3] 4 ">")
      "Precipitation exceeding normal levels" 3) = some witPrecSug
  rw [hconf]
  rfl

/-- Witness for C6: the precipitation group with values 1, 2, 3 yields
threshold 4 with operator greater-than, and its confidence is the
triggered fraction 0, inside the unit interval. -/
theorem suggestion_confidence_spec_witness :
    generateSuggestion "precipitation" witPrecAnoms = some witPrecSug ∧
    (witPrecSug.confidence =
      (((witPrecAnoms.map fun a => a.value).countP
        (triggersAlarm witPrecSug.operator witPrecSug.threshold) : ℕ) : ℝ) /
        ((witPrecAnoms.map fun a => a.value).length : ℝ) ∧
    0 ≤ witPrecSug.confidence ∧ witPrecSug.confidence ≤ 1) :=
  ⟨generateSuggestion_witPrec,
   suggestion_confidence_spec "precipitation" witPrecAnoms witPrecSug
     generateSuggestion_witPrec⟩

/-- C10: the statistics helpers are total with guarded divisions:
CalculateZScore returns 0 whenever the standard deviation is 0,
calculateStdDev returns 0 for any list of length at most 1, and
calculateMean returns 0 for the empty list, so no division by zero is
reachable. -/
theorem statistics_helpers_guarded :
    (∀ value mean : ℝ, CalculateZScore value mean 0 = 0) ∧
    (∀ (values : List ℝ) (mean : ℝ), values.length ≤ 1 →
      calculateStdDev values mean = 0) ∧
    calculateMean ([] : List ℝ) = 0 := by
  refine ⟨fun v m => by simp [CalculateZScore],
    fun vals m h => by simp [calculateStdDev, h],
    by simp [calculateMean]⟩

/-- Witness for C10 at concrete inputs. -/
theorem statistics_helpers_guarded_witness :
    CalculateZScore 7 3 0 = 0 ∧
    ([(42 : ℝ)].length ≤ 1 ∧ calculateStdDev [(42 : ℝ)] 42 = 0) ∧
    calculateMean ([] : List ℝ) = 0 :=
  ⟨statistics_helpers_guarded.1 7 3,
   ⟨by simp, statistics_helpers_guarded.2.1 [(42 : ℝ)] 42 (by simp)⟩,
   statistics_helpers_guarded.2.2⟩

/-- C4 counterexample: a message whose data field is present but fails
to unmarshal is not acknowledged by the persister, contrary to the
claimed log-and-acknowledge discard. -/
theorem persister_poison_not_acked :
    acked (persistMessage (some none) true) = false := by rfl

/-- C4 (amended): on envelope decode failure the persister logs and
skips the message without acknowledging it, and a message whose data
field is missing or not a string makes the handler panic. -/
theorem persister_decode_failure_skipped (storeOK : Bool) :
    persistMessage (some none) storeOK = PersistOutcome.skipped ∧
    acked (persistMessage (some none) storeOK) = false ∧
    persistMessage none storeOK = PersistOutcome.panicked :=
  ⟨rfl, rfl, rfl⟩

/-- C7: each collector location task makes at most 3 weather-client
attempts; after every non-final attempt it slept two-to-the-attempt
seconds because that attempt failed with a rate-limit error; and a
failure not matching the rate-limit predicate ends the task immediately
with a give-up.  Each task's trace depends only on its own fetch
outcomes, so a failing task never aborts its siblings. -/
theorem collector_retry_policy (fetch : Nat → FetchResult) :
    (1 ≤ countAttempts (collectTask fetch) ∧
      countAttempts (collectTask fetch) ≤ 3) ∧
    sleepsOf (collectTask fetch) =
      (List.range (countAttempts (collectTask fetch) - 1)).map
        (fun k => 2 ^ k) ∧
    (∀ k, k < countAttempts (collectTask fetch) - 1 →
      ∃ e, fetch k = FetchResult.fail e ∧ isRateLimitError e = true) ∧
    (∀ k e, k < countAttempts (collectTask fetch) →
      fetch k = FetchResult.fail e → isRateLimitError e = false →
      countAttempts (collectTask fetch) = k + 1 ∧
      (collectTask fetch).getLast? = some TaskEvent.gaveUp) := by
  rcases h0 : fetch 0 with _ | e0
  · have ht : collectTask fetch = [.attempt 0, .published] := by
      simp [collectTask, maxRetries, runCollectTask, h0]
    rw [ht]
    refine ⟨by decide, by decide, ?_, ?_⟩
    · intro k hk
      have hc : countAttempts [TaskEvent.attempt 0, TaskEvent.published]
          = 1 := by decide
      rw [hc] at hk
      exact absurd hk (by omega)
    · intro k e hk hfe hrl
      have hk0 : k = 0 := by
        have : countAttempts [TaskEvent.attempt 0, TaskEvent.published] = 1 :=
          by decide
        omega
      subst hk0
      rw [h0] at hfe
      cases hfe
  · by_cases hr0 : isRateLimitError e0 = true
    · rcases h1 : fetch 1 with _ | e1
      · have ht : collectTask fetch =
            [.attempt 0, .sleep 1, .attempt 1, .published] := by
          simp [collectTask, maxRetries, runCollectTask, h0, h1, hr0]
        rw [ht]
        refine ⟨by decide, by decide, ?_, ?_⟩
        · intro k hk
          have hk0 : k = 0 := by
            have : countAttempts [TaskEvent.attempt 0, TaskEvent.sleep 1,
                TaskEvent.attempt 1, TaskEvent.published] = 2 := by decide
            omega
          subst hk0
          exact ⟨e0, h0, hr0⟩
        · intro k e hk hfe hrl
          have hk01 : k = 0 ∨ k = 1 := by
            have : countAttempts [TaskEvent.attempt 0, TaskEvent.sleep 1,
                TaskEvent.attempt 1, TaskEvent.published] = 2 := by decide
            omega
          rcases hk01 with rfl | rfl
          · rw [h0] at hfe
            cases hfe
            rw [hr0] at hrl
            cases hrl
          · rw [h1] at hfe
            cases hfe
      · by_cases hr1 : isRateLimitError e1 = true
        · rcases h2 : fetch 2 with _ | e2
          · have ht : collectTask fetch = [.attempt 0, .sleep 1,
                .attempt 1, .sleep 2, .attempt 2, .published] := by
              simp [collectTask, maxRetries, runCollectTask, h0, h1, h2,
                hr0, hr1]
            rw [ht]
            refine ⟨by decide, by decide, ?_, ?_⟩
            · intro k hk
              have hk01 : k = 0 ∨ k = 1 := by
                have : countAttempts [TaskEvent.attempt 0, TaskEvent.sleep 1,
                    TaskEvent.attempt 1, TaskEvent.sleep 2,
                    TaskEvent.attempt 2, TaskEvent.published] = 3 := by decide
                omega
              rcases hk01 with rfl | rfl
              · exact ⟨e0, h0, hr0⟩
              · exact ⟨e1, h1, hr1⟩
            · intro k e hk hfe hrl
              have hk012 : k = 0 ∨ k = 1 ∨ k = 2 := by
                have : countAttempts [TaskEvent.attempt 0, TaskEvent.sleep 1,
                    TaskEvent.attempt 1, TaskEvent.sleep 2,
                    TaskEvent.attempt 2, TaskEvent.published] = 3 := by decide
                omega
              rcases hk012 with rfl | rfl | rfl
              · rw [h0] at hfe
                cases hfe
                rw [hr0] at hrl
                cases hrl
              · rw [h1] at hfe
                cases hfe
                rw [hr1] at hrl
                cases hrl
              · rw [h2] at hfe
                cases hfe
          · have ht : collectTask fetch = [.attempt 0, .sleep 1,
                .attempt 1, .sleep 2, .attempt 2, .gaveUp] := by
              simp [collectTask, maxRetries, runCollectTask, h0, h1, h2,
                hr0, hr1]
            rw [ht]
            refine ⟨by decide, by decide, ?_, ?_⟩
            · intro k hk
              have hk01 : k = 0 ∨ k = 1 := by
                have : countAttempts [TaskEvent.attempt 0, TaskEvent.sleep 1,
                    TaskEvent.attempt 1, TaskEvent.sleep 2,
                    TaskEvent.attempt 2, TaskEvent.gaveUp] = 3 := by decide
                omega
              rcases hk01 with rfl | rfl
              · exact ⟨e0, h0, hr0⟩
              · exact ⟨e1, h1, hr1⟩
            · intro k e hk hfe hrl
              have hk012 : k = 0 ∨ k = 1 ∨ k = 2 := by
                have : countAttempts [TaskEvent.attempt 0, TaskEvent.sleep 1,
                    TaskEvent.attempt 1, TaskEvent.sleep 2,
                    TaskEvent.attempt 2, TaskEvent.gaveUp] = 3 := by decide
                omega
              rcases hk012 with rfl | rfl | rfl
              · rw [h0] at hfe
                cases hfe
                rw [hr0] at hrl
                cases hrl
              · rw [h1] at hfe
                cases hfe
                rw [hr1] at hrl
                cases hrl
              · exact ⟨by decide, by decide⟩
        · have hr1' : isRateLimitError e1 = false := by
            revert hr1
            cases isRateLimitError e1 <;> simp
          have ht : collectTask fetch =
              [.attempt 0, .sleep 1, .attempt 1, .gaveUp] := by
            simp [collectTask, maxRetries, runCollectTask, h0, h1, hr0, hr1']
          rw [ht]
          refine ⟨by decide, by decide, ?_, ?_⟩
          · intro k hk
            have hk0 : k = 0 := by
              have : countAttempts [TaskEvent.attempt 0, TaskEvent.sleep 1,
                  TaskEvent.attempt 1, TaskEvent.gaveUp] = 2 := by decide
              omega
            subst hk0
            exact ⟨e0, h0, hr0⟩
          · intro k e hk hfe hrl
            have hk01 : k = 0 ∨ k = 1 := by
              have : countAttempts [TaskEvent.attempt 0, TaskEvent.sleep 1,
                  TaskEvent.attempt 1, TaskEvent.gaveUp] = 2 := by decide
              omega
            rcases hk01 with rfl | rfl
            · rw [h0] at hfe
              cases hfe
              rw [hr0] at hrl
              cases hrl
            · exact ⟨by decide, by decide⟩
    · have hr0' : isRateLimitError e0 = false := by
        revert hr0
        cases isRateLimitError e0 <;> simp
      have ht : collectTask fetch = [.attempt 0, .gaveUp] := by
        simp [collectTask, maxRetries, runCollectTask, h0, hr0']
      rw [ht]
      refine ⟨by decide, by decide, ?_, ?_⟩
      · intro k hk
        have hc : countAttempts [TaskEvent.attempt 0, TaskEvent.gaveUp]
            = 1 := by decide
        rw [hc] at hk
        exact absurd hk (by omega)
      · intro k e hk hfe hrl
        have hk0 : k = 0 := by
          have : countAttempts [TaskEvent.attempt 0, TaskEvent.gaveUp] = 1 :=
            by decide
          omega
        subst hk0
        exact ⟨by decide, by decide⟩

/-- The fetch outcomes of the C7 witness: a rate-limited failure then a
success. -/
def witFetch : Nat → FetchResult := fun k =>
  match k with
  | 0 => FetchResult.fail "HTTP 429 Too Many Requests"
  | _ => FetchResult.ok

/-- Witness for C7: the witness task backs off 1 second after its
rate-limited first attempt and publishes on the second. -/
theorem collector_retry_policy_witness :
    collectTask witFetch =
      [TaskEvent.attempt 0, TaskEvent.sleep 1, TaskEvent.attempt 1,
       TaskEvent.published] ∧
    ((1 ≤ countAttempts (collectTask witFetch) ∧
      countAttempts (collectTask witFetch) ≤ 3) ∧
    sleepsOf (collectTask witFetch) =
      (List.range (countAttempts (collectTask witFetch) - 1)).map
        (fun k => 2 ^ k) ∧
    (∀ k, k < countAttempts (collectTask witFetch) - 1 →
      ∃ e, witFetch k = FetchResult.fail e ∧ isRateLimitError e = true) ∧
    (∀ k e, k < countAttempts (collectTask witFetch) →
      witFetch k = FetchResult.fail e → isRateLimitError e = false →
      countAttempts (collectTask witFetch) = k + 1 ∧
      (collectTask witFetch).getLast? = some TaskEvent.gaveUp)) :=
  ⟨by decide, collector_retry_policy witFetch⟩

/-- C8: the collector fetches in historical mode exactly when the
location's name is absent from the set of locations having at least one
stored observation. -/
theorem collector_mode_decision (rows : List MetricRow) (name : String) :
    chooseMode (GetLocationsWithData rows) name = FetchMode.historical ↔
      ¬ ∃ r ∈ rows, r.location = name := by
  have hmem : name ∈ GetLocationsWithData rows ↔
      ∃ r ∈ rows, r.location = name := by
    simp [GetLocationsWithData, List.mem_dedup, List.mem_map]
  unfold chooseMode
  split_ifs with h
  · rw [hmem] at h
    exact ⟨fun hc => absurd hc (by decide), fun hn => absurd h hn⟩
  · rw [hmem] at h
    exact ⟨fun _ => h, fun _ => rfl⟩

/-- Witness for C8: a location with no observation row is fetched in
historical mode; one with a row is fetched in current mode. -/
theorem collector_mode_decision_witness :
    chooseMode (GetLocationsWithData [⟨"Tokyo"⟩]) "Paris" =
      FetchMode.historical ∧
    chooseMode (GetLocationsWithData [⟨"Paris"⟩]) "Paris" =
      FetchMode.current :=
  ⟨(collector_mode_decision [⟨"Tokyo"⟩] "Paris").mpr (by simp), by rfl⟩

/-- C9: in every reachable state of a collector run, at most cap tasks
hold a semaphore slot, so at most cap upstream requests are in flight,
however many location tasks were spawned. -/
theorem semaphore_cap (cap n : Nat) (s : List SemPhase)
    (h : SemReachable cap n s) : heldCount s ≤ cap := by
  induction h with
  | refl => simp [heldCount_replicate_idle]
  | tail hsteps hstep ih =>
    cases hstep with
    | acquire l r hlt =>
      rw [heldCount_split] at hlt ⊢
      have h1 : heldCount [SemPhase.idle] = 0 := rfl
      have h2 : heldCount [SemPhase.acquired] = 1 := rfl
      rw [h1] at hlt
      rw [h2]
      omega
    | release l r =>
      rw [heldCount_split] at ih ⊢
      have h1 : heldCount [SemPhase.acquired] = 1 := rfl
      have h2 : heldCount [SemPhase.done] = 0 := rfl
      rw [h1] at ih
      rw [h2]
      omega

/-- Witness for C9: with capacity 2 and three tasks, the state in which
two tasks hold slots is reachable and within the cap. -/
theorem semaphore_cap_witness :
    SemReachable 2 3
      [SemPhase.acquired, SemPhase.acquired, SemPhase.idle] ∧
    heldCount [SemPhase.acquired, SemPhase.acquired, SemPhase.idle] ≤ 2 := by
  have s1 : SemStep 2 [SemPhase.idle, SemPhase.idle, SemPhase.idle]
      [SemPhase.acquired, SemPhase.idle, SemPhase.idle] :=
    SemStep.acquire [] [SemPhase.idle, SemPhase.idle] (by decide)
  have s2 : SemStep 2 [SemPhase.acquired, SemPhase.idle, SemPhase.idle]
      [SemPhase.acquired, SemPhase.acquired, SemPhase.idle] :=
    SemStep.acquire [SemPhase.acquired] [SemPhase.idle] (by decide)
  have hreach : SemReachable 2 3
      [SemPhase.acquired, SemPhase.acquired, SemPhase.idle] :=
    Relation.ReflTransGen.tail (Relation.ReflTransGen.tail
      Relation.ReflTransGen.refl s1) s2
  exact ⟨hreach, semaphore_cap 2 3 _ hreach⟩

/-- C1: the wait loop's cursor is never advanced, so an unrelated
response that arrived after the cursor probe is re-inspected on every
tick: here an unrelated message is inspected twice before our own
response is accepted, refuting at-most-once inspection. -/
theorem ml_wait_reinspects_messages :
    (inspectedMessages "Paris_1700000000" 0
      [[⟨1, some ⟨"Berlin_1699999990"⟩⟩],
       [⟨1, some ⟨"Berlin_1699999990"⟩⟩,
        ⟨2, some ⟨"Paris_1700000000"⟩⟩]]).count
      ⟨1, some ⟨"Berlin_1699999990"⟩⟩ = 2 ∧
    mlWaitLoop "Paris_1700000000" 0
      [[⟨1, some ⟨"Berlin_1699999990"⟩⟩],
       [⟨1, some ⟨"Berlin_1699999990"⟩⟩,
        ⟨2, some ⟨"Paris_1700000000"⟩⟩]] =
      some ⟨2, some ⟨"Paris_1700000000"⟩⟩ := by
  constructor <;> rfl

/-- C2: every response accepted by the wait loop decodes to our job id
and sits in the output stream at an id strictly greater than the cursor
probed from the stream tail before the request was published. -/
theorem ml_accept_correlated (jobID : String)
    (initialStream : List StreamMsg) (snaps : List (List StreamMsg))
    (m : StreamMsg)
    (h : mlWaitLoop jobID (probeLastID initialStream) snaps = some m) :
    (∃ r : MLResultMsg, m.data = some r ∧ r.jobID = jobID) ∧
      probeLastID initialStream < m.id := by
  obtain ⟨hp, hlt⟩ := mlWaitLoop_accept jobID (probeLastID initialStream)
    snaps m h
  refine ⟨?_, hlt⟩
  unfold isMatch at hp
  rcases hd : m.data with _ | r
  · rw [hd] at hp
    cases hp
  · rw [hd] at hp
    exact ⟨r, rfl, by simpa using hp⟩

/-- Witness for C2: a concrete run in which a pre-existing response sits
at the probed tail and our own response is accepted with a larger id. -/
theorem ml_accept_correlated_witness :
    mlWaitLoop "Paris_1700000000"
      (probeLastID [⟨5, some ⟨"Berlin_1699999990"⟩⟩])
      [[⟨5, some ⟨"Berlin_1699999990"⟩⟩, ⟨6, some ⟨"Paris_1700000000"⟩⟩]] =
      some ⟨6, some ⟨"Paris_1700000000"⟩⟩ ∧
    ((∃ r : MLResultMsg,
        (StreamMsg.mk 6 (some ⟨"Paris_1700000000"⟩)).data = some r ∧
          r.jobID = "Paris_1700000000") ∧
      probeLastID [⟨5, some ⟨"Berlin_1699999990"⟩⟩] <
        (StreamMsg.mk 6 (some ⟨"Paris_1700000000"⟩)).id) :=
  ⟨by rfl, ml_accept_correlated "Paris_1700000000"
    [⟨5, some ⟨"Berlin_1699999990"⟩⟩]
    [[⟨5, some ⟨"Berlin_1699999990"⟩⟩, ⟨6, some ⟨"Paris_1700000000"⟩⟩]]
    ⟨6, some ⟨"Paris_1700000000"⟩⟩ (by rfl)⟩

end Preempt
